import Mathlib

/-!
Shallow embedding of the django-workflows engine (src/workflows/models.py and
src/workflows/utils.py) and proofs about the claims of its specification.

Modelling conventions:
* Database rows are Lean structures; the mutable store is a `Database` record of
  row lists.  Foreign keys are numeric ids.
* Django signals are modelled as an event list inside the store: each operation
  appends the events it sends, in the order the source sends them.
* Machinery outside the repository (the `permissions` package, Django's ORM) is
  modelled at its interface: `Permissions.*` below are modelled from the spec,
  section 6 (external permission subsystem: grant / bulk revoke / reset /
  role-based object check).
* `objects.get(...)` is modelled as a first-match lookup (`List.find?`); a
  multi-row match would raise MultipleObjectsReturned in Django, which does not
  arise for the stores considered here (the relevant tables carry uniqueness
  constraints, and theorems that need per-entity uniqueness of state bindings
  state it as a hypothesis).
* `StateObjectRelation.state` is a non-nullable column; the engine can still
  pass None into `set_state` (`Workflow.set_to_object` forwards the raw
  `initial_state` field, `set_initial_state` forwards `get_initial_state` of a
  possibly state-less workflow).  Such a call raises at the state write —
  after `before_state_change` has fired and before any row or history is
  written — which `set_state` models by returning `Except.error` carrying the
  store at raise time; `storeOf` reads the resulting store out of either
  outcome.
* A Python exception relevant to the engine's control flow is modelled with
  `Except`: `PyExc.attributeError` is the AttributeError caught by
  `State.get_allowed_transitions`, `PyExc.otherError` any other exception
  escaping an entity's own `has_permission`.
-/

/-- Exceptions distinguished by the engine's handlers (models.py lines 212-217
catch exactly AttributeError around the entity's own permission check). -/
inductive PyExc where
  | attributeError
  | otherError
deriving Repr, DecidableEq

/-- workflows.models.Workflow (fields used by the engine): unique name and
codename, nullable initial_state foreign key. -/
structure Workflow where
  id : Nat
  name : String
  codename : String
  initial_state : Option Nat
deriving Repr, DecidableEq

/-- workflows.models.State: codename, parent workflow, many-to-many list of
outgoing transition ids (in declaration order). -/
structure State where
  id : Nat
  name : String
  codename : String
  workflow : Nat
  transitions : List Nat
deriving Repr, DecidableEq

/-- workflows.models.Transition: nullable destination state, optional guard
condition (a TextField, where the empty string means "no condition"), optional
required permission. -/
structure Transition where
  id : Nat
  name : String
  codename : String
  workflow : Nat
  destination : Option Nat
  condition : String
  permission : Option Nat
deriving Repr, DecidableEq

/-- permissions.models.Permission (external package): unique codename. -/
structure Permission where
  id : Nat
  name : String
  codename : String
deriving Repr, DecidableEq

/-- workflows.models.StateObjectRelation: the state binding of one entity,
keyed by (content_type, content_id); the state foreign key is non-nullable
(models.py line 292). -/
structure StateObjectRelation where
  content_type : Nat
  content_id : Nat
  state : Nat
deriving Repr, DecidableEq

/-- workflows.models.StateObjectHistory: append-only state history row; the
state foreign key is non-nullable. -/
structure StateObjectHistory where
  content_type : Nat
  content_id : Nat
  state : Nat
deriving Repr, DecidableEq

/-- workflows.models.WorkflowObjectRelation: entity-level workflow binding,
unique per (content_type, content_id). -/
structure WorkflowObjectRelation where
  content_type : Nat
  content_id : Nat
  workflow : Nat
deriving Repr, DecidableEq

/-- workflows.models.WorkflowModelRelation: type-level workflow binding,
unique per content_type. -/
structure WorkflowModelRelation where
  content_type : Nat
  workflow : Nat
deriving Repr, DecidableEq

/-- workflows.models.WorkflowPermissionRelation: the permissions a workflow is
responsible for. -/
structure WorkflowPermissionRelation where
  workflow : Nat
  permission : Nat
deriving Repr, DecidableEq

/-- workflows.models.StatePermissionRelation: (state, permission, role) grant
triple. -/
structure StatePermissionRelation where
  state : Nat
  permission : Nat
  role : Nat
deriving Repr, DecidableEq

/-- permissions.models.ObjectPermission (external package): a per-object grant
of a permission to a role. -/
structure ObjectPermission where
  content_type : Nat
  content_id : Nat
  role : Nat
  permission : Nat
deriving Repr, DecidableEq

/-- The four django signals of workflows/signals.py, recorded with their
payload (sender identified by content type and id). -/
inductive Event where
  | before_state_change (sender_ctype sender_id : Nat) (from_state to_state : Option Nat)
  | after_state_change (sender_ctype sender_id : Nat) (from_state to_state : Option Nat)
  | before_transition (sender_ctype sender_id : Nat) (from_state : Option Nat) (transition : Nat) (user : Nat)
  | after_transition (sender_ctype sender_id : Nat) (from_state : Option Nat) (transition : Nat) (user : Nat)
deriving Repr, DecidableEq

/-- A domain entity: its content type, its id, and the optional specialized
`has_permission` method it may expose (an entity inheriting from the
permissions PermissionBase class).  `none` means the attribute is absent, which
raises AttributeError when called; a present method may itself raise. -/
structure Obj where
  ctype : Nat
  id : Nat
  has_permission : Option (Nat → String → Except PyExc Bool)

/-- The persistent store plus the event trace.  `enable_state_history` models
the settings.WORKFLOWS_ENABLE_STATE_HISTORY flag of workflows.conf (repository
code not under src/, modelled from the spec: history rows are appended on
state changes only when history tracking is enabled).
`object_perms`, `principal_roles` and `roles` belong to the external
permissions subsystem, modelled from the spec, section 6. -/
structure Database where
  workflows : List Workflow
  states : List State
  transitions : List Transition
  permission_rows : List Permission
  roles : List Nat
  wors : List WorkflowObjectRelation
  wmrs : List WorkflowModelRelation
  sors : List StateObjectRelation
  history : List StateObjectHistory
  wprs : List WorkflowPermissionRelation
  sprs : List StatePermissionRelation
  object_perms : List ObjectPermission
  principal_roles : List (Nat × Nat)
  enable_state_history : Bool
  events : List Event

/-- A guard-expression evaluator (the host's eval of a condition string against
the bindings obj / user / transition); an error models a raised exception. -/
abbrev GuardEval := String → Obj → Nat → Transition → Except Unit Bool

/-- Replace the first list element satisfying `p` by its image under `f`
(an ORM row fetched by `get` and mutated by `save`). -/
def updateFirst (p : α → Bool) (f : α → α) : List α → List α
  | [] => []
  | a :: as => if p a then f a :: as else a :: updateFirst p f as

/-- Delete the first list element satisfying `p` (a fetched row's `delete`). -/
def eraseFirst (p : α → Bool) : List α → List α
  | [] => []
  | a :: as => if p a then as else a :: eraseFirst p as

/-- The row filter of StateObjectRelation.objects.get(content_type=ctype,
content_id=obj.id). -/
def sorMatches (obj : Obj) (r : StateObjectRelation) : Bool :=
  r.content_type == obj.ctype && r.content_id == obj.id

/-- The row filter of WorkflowObjectRelation.objects.get(content_type=ctype,
content_id=obj.id). -/
def worMatches (obj : Obj) (r : WorkflowObjectRelation) : Bool :=
  r.content_type == obj.ctype && r.content_id == obj.id

/-- The row filter of an ObjectPermission for a given object, role and
permission. -/
def opMatches (obj : Obj) (role perm : Nat) (op : ObjectPermission) : Bool :=
  op.content_type == obj.ctype && op.content_id == obj.id &&
    op.role == role && op.permission == perm

/-- Whether the external permission store currently grants `perm` to `role` on
`obj`. -/
def hasGrant (db : Database) (obj : Obj) (role perm : Nat) : Bool :=
  db.object_perms.any (opMatches obj role perm)

/-- Modelled from the spec, section 6: permissions.utils.grant_permission
(external package) — create the ObjectPermission row unless it already
exists. -/
def Permissions.grant_insert (ops : List ObjectPermission) (obj : Obj) (role perm : Nat) :
    List ObjectPermission :=
  if ops.any (opMatches obj role perm) then ops
  else ops ++ [⟨obj.ctype, obj.id, role, perm⟩]

/-- Modelled from the spec, section 6: permissions.utils.remove_permission
(external package) — bulk revoke of the given permissions from the given roles
on the object. -/
def Permissions.remove_bulk (ops : List ObjectPermission) (obj : Obj)
    (roles perms : List Nat) : List ObjectPermission :=
  ops.filter (fun op =>
    !(op.content_type == obj.ctype && op.content_id == obj.id &&
      roles.contains op.role && perms.contains op.permission))

/-- Modelled from the spec, section 6: permissions.utils.reset (external
package) — revoke every object permission of the object. -/
def Permissions.reset_ops (ops : List ObjectPermission) (obj : Obj) :
    List ObjectPermission :=
  ops.filter (fun op => !(op.content_type == obj.ctype && op.content_id == obj.id))

/-- Modelled from the spec, section 6: permissions.utils.has_permission
(external package) — the default permission gate: some role of the user holds
a permission with the given codename on the object. -/
def Permissions.has_permission (db : Database) (obj : Obj) (user : Nat)
    (codename : String) : Bool :=
  db.object_perms.any (fun op =>
    op.content_type == obj.ctype && op.content_id == obj.id &&
    db.principal_roles.contains (user, op.role) &&
    db.permission_rows.any (fun p => p.id == op.permission && p.codename == codename))

/-- Resolve a permission foreign key to its codename (`permission.codename` in
the source; permission foreign keys always resolve in a consistent store). -/
def permissionCodename (db : Database) (pid : Nat) : String :=
  ((db.permission_rows.find? (fun p => p.id == pid)).map (fun p => p.codename)).getD ""

/-- workflows.utils.get_workflow_for_object, utils.py lines 201-216: the
entity-level binding's workflow, if any. -/
def get_workflow_for_object (db : Database) (obj : Obj) : Option Nat :=
  match db.wors.find? (worMatches obj) with
  | none => none
  | some wor => some wor.workflow

/-- workflows.utils.get_workflow_for_model, utils.py lines 219-236: the
type-level binding's workflow, if any. -/
def get_workflow_for_model (db : Database) (ctype : Nat) : Option Nat :=
  match db.wmrs.find? (fun r => r.content_type == ctype) with
  | none => none
  | some wmr => some wmr.workflow

/-- workflows.utils.get_workflow, utils.py lines 182-198: entity-level binding
first, else the binding of the entity's content type. -/
def get_workflow (db : Database) (obj : Obj) : Option Nat :=
  match get_workflow_for_object db obj with
  | some w => some w
  | none => get_workflow_for_model db obj.ctype

/-- workflows.utils.get_state, utils.py lines 239-254: the state stored in the
entity's StateObjectRelation, none when there is no such row. -/
def get_state (db : Database) (obj : Obj) : Option Nat :=
  match db.sors.find? (sorMatches obj) with
  | none => none
  | some sor => some sor.state

/-- States of a workflow in the order `self.states.all()` yields them: the
State model declares `ordering = ("name",)`, so rows come sorted by name
(insertion order on ties). -/
def insertByName (s : State) : List State → List State
  | [] => [s]
  | t :: ts => if s.name < t.name then s :: t :: ts else t :: insertByName s ts

/-- Sort a state list by name (the model's Meta ordering). -/
def sortStatesByName (l : List State) : List State :=
  l.foldl (fun acc s => insertByName s acc) []

/-- workflows.models.Workflow.get_initial_state, models.py lines 54-64: the
explicit initial state if set, else the first of the workflow's states (by the
State model's name ordering), else none. -/
def Workflow.get_initial_state (db : Database) (w : Workflow) : Option Nat :=
  match w.initial_state with
  | some s => some s
  | none =>
    match sortStatesByName (db.states.filter (fun s => s.workflow == w.id)) with
    | [] => none
    | s :: _ => some s.id

/-- The permissions the entity's workflow is responsible for: the list
comprehension over WorkflowPermissionRelation.objects.filter(workflow=workflow)
in update_permissions, utils.py line 355.  When the entity has no workflow the
ORM filter compares against NULL and matches nothing. -/
def responsiblePerms (db : Database) (obj : Obj) : List Nat :=
  (db.wprs.filter (fun wpr => some wpr.workflow == get_workflow db obj)).map
    (fun wpr => wpr.permission)

/-- The grant triples configured for the entity's current state:
StatePermissionRelation.objects.filter(state=state) in update_permissions,
utils.py line 359 (matches nothing when the entity has no state). -/
def configuredSprs (db : Database) (obj : Obj) : List StatePermissionRelation :=
  db.sprs.filter (fun spr => some spr.state == get_state db obj)

/-- workflows.utils.update_permissions, utils.py lines 344-360: bulk-revoke the
workflow's responsible permissions from all roles, then grant the current
state's configured (permission, role) triples. -/
def update_permissions (db : Database) (obj : Obj) : Database :=
  let perms := responsiblePerms db obj
  let ops1 := Permissions.remove_bulk db.object_perms obj db.roles perms
  let ops2 := (configuredSprs db obj).foldl
    (fun ops spr => Permissions.grant_insert ops obj spr.role spr.permission) ops1
  { db with object_perms := ops2 }

/-- The success path of workflows.utils.set_state (utils.py lines 257-292),
taken when the state argument is an actual State row: fire before_state_change
with the previous state (none when the entity has no binding), update the
existing StateObjectRelation in place or create one, append a history row when
history is enabled, fire after_state_change, then run update_permissions. -/
def write_state (db : Database) (obj : Obj) (s : Nat) : Database :=
  let db1 :=
    match db.sors.find? (sorMatches obj) with
    | some sor =>
      { db with
        events := db.events ++
          [Event.before_state_change obj.ctype obj.id (some sor.state) (some s),
           Event.after_state_change obj.ctype obj.id (some sor.state) (some s)],
        sors := updateFirst (sorMatches obj) (fun r => { r with state := s }) db.sors,
        history := if db.enable_state_history then
            db.history ++ [⟨obj.ctype, obj.id, s⟩] else db.history }
    | none =>
      { db with
        events := db.events ++
          [Event.before_state_change obj.ctype obj.id none (some s),
           Event.after_state_change obj.ctype obj.id none (some s)],
        sors := db.sors ++ [⟨obj.ctype, obj.id, s⟩],
        history := if db.enable_state_history then
            db.history ++ [⟨obj.ctype, obj.id, s⟩] else db.history }
  update_permissions db1 obj

/-- workflows.utils.set_state, utils.py lines 257-292.  The engine can pass
None here (Workflow.set_to_object forwards the raw initial_state field, and
set_initial_state forwards get_initial_state of a workflow that may have no
states).  StateObjectRelation.state is a non-nullable foreign key, so writing
a None state raises (ValueError at the attribute assignment or the NOT NULL
constraint at save, depending on the Django generation) — in every case after
before_state_change has fired with to_state=None and before any row is
written: no binding change, no history row, no after_state_change, no
permission recomputation.  The error value carries the store as it is when the
exception escapes.  The string-codename form of the `state` argument is not
modelled (the engine passes a State instance or None). -/
def set_state (db : Database) (obj : Obj) (st : Option Nat) : Except Database Database :=
  match st with
  | some s => Except.ok (write_state db obj s)
  | none =>
    Except.error { db with
      events := db.events ++
        [Event.before_state_change obj.ctype obj.id (get_state db obj) none] }

/-- The store an engine call leaves behind, whether it returns normally or
raises (the error value carries the store at raise time). -/
def storeOf : Except Database Database → Database
  | Except.ok d => d
  | Except.error d => d

/-- Whether an engine call returned normally rather than raising. -/
def exceptIsOk : Except Database Database → Bool
  | Except.ok _ => true
  | Except.error _ => false

/-- workflows.utils.set_initial_state, utils.py lines 295-301: set the initial
state of the entity's workflow, if the entity has one (raising, like
set_state, when that workflow's get_initial_state is None). -/
def set_initial_state (db : Database) (obj : Obj) : Except Database Database :=
  match get_workflow db obj with
  | none => Except.ok db
  | some wfId =>
    match db.workflows.find? (fun w => w.id == wfId) with
    | none => Except.ok db
    | some wf => set_state db obj (Workflow.get_initial_state db wf)

/-- workflows.models.Workflow.set_to_object, models.py lines 122-146: create or
overwrite the entity-level binding and reset the state to `self.initial_state`
(the raw field, which may be None — then set_state raises after firing
before_state_change); do nothing when the entity already has this workflow. -/
def Workflow.set_to_object (db : Database) (w : Workflow) (obj : Obj) :
    Except Database Database :=
  match db.wors.find? (worMatches obj) with
  | none =>
    let db1 := { db with wors := db.wors ++ [⟨obj.ctype, obj.id, w.id⟩] }
    set_state db1 obj w.initial_state
  | some wor =>
    if wor.workflow = w.id then Except.ok db
    else
      let db1 := { db with
        wors := updateFirst (worMatches obj) (fun r => { r with workflow := w.id }) db.wors }
      set_state db1 obj w.initial_state

/-- workflows.utils.set_workflow for an entity (dispatches to
Workflow.set_to_object). -/
def set_workflow (db : Database) (obj : Obj) (w : Workflow) : Except Database Database :=
  Workflow.set_to_object db w obj

/-- workflows.utils.remove_workflow_from_object, utils.py lines 92-112: try to
delete the entity-level binding, reset all object permissions, then set the
initial state of the workflow the entity now resolves to.  The lookup is
`WorkflowObjectRelation.objects.get(content_type=obj)`: it passes the entity
where a ContentType is expected, so the ORM compares the binding's content_type
foreign key against the entity's primary key (and filters on nothing else) —
the entity's own binding is not reliably found. -/
def remove_workflow_from_object (db : Database) (obj : Obj) : Except Database Database :=
  let db1 :=
    match db.wors.find? (fun r => r.content_type == obj.id) with
    | none => db
    | some _ =>
      { db with wors := eraseFirst (fun r => r.content_type == obj.id) db.wors }
  let db2 := { db1 with object_perms := Permissions.reset_ops db1.object_perms obj }
  set_initial_state db2 obj

/-- workflows.utils.remove_workflow for an entity (dispatches to
remove_workflow_from_object). -/
def remove_workflow (db : Database) (obj : Obj) : Except Database Database :=
  remove_workflow_from_object db obj

/-- The guard check `_condition_met` of State.get_allowed_transitions,
models.py lines 189-200: no condition means the guard is met; an evaluation
error is swallowed and treated as "not met". -/
def condition_met (geval : GuardEval) (obj : Obj) (user : Nat) (t : Transition) : Bool :=
  if t.condition ≠ "" then
    match geval t.condition obj user t with
    | Except.ok b => b
    | Except.error _ => false
  else true

/-- The permission-and-guard decision for one transition, models.py lines
203-217: no required permission — guard only; otherwise the entity's own
has_permission is tried first, AttributeError (absent attribute or raised
during execution) falls back to the default gate, any other exception
propagates. -/
def transition_allowed (geval : GuardEval) (db : Database) (obj : Obj) (user : Nat)
    (t : Transition) : Except PyExc Bool :=
  match t.permission with
  | none => Except.ok (condition_met geval obj user t)
  | some pid =>
    let cn := permissionCodename db pid
    match obj.has_permission with
    | some f =>
      match f user cn with
      | Except.ok b => Except.ok (b && condition_met geval obj user t)
      | Except.error PyExc.attributeError =>
        Except.ok (Permissions.has_permission db obj user cn && condition_met geval obj user t)
      | Except.error PyExc.otherError => Except.error PyExc.otherError
    | none =>
      Except.ok (Permissions.has_permission db obj user cn && condition_met geval obj user t)

/-- The transitions listed on a state, in declaration order
(`self.transitions.all()`). -/
def transitionsOf (db : Database) (s : State) : List Transition :=
  db.transitions.filter (fun t => s.transitions.contains t.id)

/-- The filtering loop of State.get_allowed_transitions: keep the transitions
whose decision is true, propagating an exception raised by an entity's own
permission check. -/
def allowed_filter (geval : GuardEval) (db : Database) (obj : Obj) (user : Nat) :
    List Transition → Except PyExc (List Transition)
  | [] => Except.ok []
  | t :: ts =>
    match transition_allowed geval db obj user t with
    | Except.error e => Except.error e
    | Except.ok b =>
      match allowed_filter geval db obj user ts with
      | Except.error e => Except.error e
      | Except.ok rest => Except.ok (if b then t :: rest else rest)

/-- workflows.models.State.get_allowed_transitions, models.py lines 186-218. -/
def State.get_allowed_transitions (geval : GuardEval) (db : Database) (s : State)
    (obj : Obj) (user : Nat) : Except PyExc (List Transition) :=
  allowed_filter geval db obj user (transitionsOf db s)

/-- workflows.utils.get_allowed_transitions, utils.py lines 304-320: empty when
the entity has no current state (state foreign keys always resolve in a
consistent store). -/
def get_allowed_transitions (geval : GuardEval) (db : Database) (obj : Obj)
    (user : Nat) : Except PyExc (List Transition) :=
  match get_state db obj with
  | none => Except.ok []
  | some stId =>
    match db.states.find? (fun s => s.id == stId) with
    | none => Except.ok []
    | some s => State.get_allowed_transitions geval db s obj user

/-- The `transition` argument of do_transition: a Transition instance or a
codename string. -/
inductive TransitionArg where
  | trans (t : Transition)
  | codename (s : String)

/-- Resolve the do_transition argument, utils.py lines 326-330: a codename that
matches no Transition resolves to none. -/
def resolveTransition (db : Database) : TransitionArg → Option Transition
  | TransitionArg.trans t => some t
  | TransitionArg.codename s => db.transitions.find? (fun t => t.codename == s)

/-- workflows.utils.do_transition, utils.py lines 323-341: false when the
codename resolves to nothing or the transition is not allowed (membership is
Django model equality, i.e. primary-key equality); otherwise fire
before_transition, change state only when the destination is non-null and
differs from the current state (through write_state: set_state called with an
actual State row always takes its success path), fire after_transition,
return true. -/
def do_transition (geval : GuardEval) (db : Database) (obj : Obj)
    (arg : TransitionArg) (user : Nat) : Except PyExc (Database × Bool) :=
  match resolveTransition db arg with
  | none => Except.ok (db, false)
  | some t =>
    match get_allowed_transitions geval db obj user with
    | Except.error e => Except.error e
    | Except.ok ts =>
      if ts.any (fun x => x.id == t.id) then
        let init := get_state db obj
        let db1 := { db with
          events := db.events ++ [Event.before_transition obj.ctype obj.id init t.id user] }
        let db2 :=
          match t.destination with
          | none => db1
          | some d => if some d == init then db1
            else write_state db1 obj d
        let db3 := { db2 with
          events := db2.events ++ [Event.after_transition obj.ctype obj.id init t.id user] }
        Except.ok (db3, true)
      else Except.ok (db, false)

/-- The specification's "applicable permission check" for a transition with a
required permission (stated from the spec's words, for comparison with the
code): the entity's own specialized has_permission when the entity exposes one,
otherwise the default permission gate. -/
def applicable_check (db : Database) (obj : Obj) (user : Nat) (cn : String) :
    Except PyExc Bool :=
  match obj.has_permission with
  | some f => f user cn
  | none => Except.ok (Permissions.has_permission db obj user cn)

/-- Key of a state binding: the entity it belongs to. -/
def sorKey (r : StateObjectRelation) : Nat × Nat := (r.content_type, r.content_id)

/-- No two state-binding rows for the same entity. -/
def nodupKeys (l : List StateObjectRelation) : Prop := (l.map sorKey).Nodup

/-- The uniqueness invariant of claim C9: at most one StateObjectRelation per
entity. -/
def uniqueStateBindings (db : Database) : Prop := nodupKeys db.sors

/-- Whether the current state of the entity configures a grant of `perm` to
`role`. -/
def configured (db : Database) (obj : Obj) (role perm : Nat) : Bool :=
  (configuredSprs db obj).any (fun spr => spr.role == role && spr.permission == perm)

/-- A guard evaluator whose every expression evaluates to true. -/
def gevalTrue : GuardEval := fun _ _ _ _ => Except.ok true

/-- A guard evaluator whose every expression raises. -/
def gevalErr : GuardEval := fun _ _ _ _ => Except.error ()

/-- An empty store, basis of the concrete fixtures. -/
def emptyDb : Database :=
  { workflows := [], states := [], transitions := [], permission_rows := [],
    roles := [], wors := [], wmrs := [], sors := [], history := [],
    wprs := [], sprs := [], object_perms := [], principal_roles := [],
    enable_state_history := false, events := [] }

/-- Fixture workflow with no explicit initial state and one state (id 7). -/
def wfA : Workflow := ⟨2, "w2", "w2", none⟩

/-- Fixture store for the C1 counterexample, scenario without a previous
workflow. -/
def dbA : Database :=
  { emptyDb with workflows := [wfA], states := [⟨7, "a", "a", 2, []⟩] }

/-- The entity of the C1 counterexample (no specialized permission check). -/
def eA : Obj := ⟨1, 1, none⟩

/-- Fixture workflow with explicit initial state 7. -/
def wfB : Workflow := ⟨2, "w2", "w2", some 7⟩

/-- Fixture store for the C1 counterexample, scenario where the entity already
has this very workflow and currently sits in a non-initial state (id 8). -/
def dbB : Database :=
  { emptyDb with
    workflows := [wfB],
    states := [⟨7, "a", "a", 2, []⟩, ⟨8, "b", "b", 2, []⟩],
    wors := [⟨1, 1, 2⟩],
    sors := [⟨1, 1, 8⟩] }

/-- Fixture store for the C2 failing input: entity (ctype 1, id 5) with an
entity-level binding to workflow 1 (initial state 10), currently in state 11,
workflow responsible for permission 20, state 10 granting permission 20 to
role 30. -/
def dbC : Database :=
  { emptyDb with
    workflows := [⟨1, "w", "w", some 10⟩],
    states := [⟨10, "private", "private", 1, []⟩, ⟨11, "public", "public", 1, []⟩],
    permission_rows := [⟨20, "edit", "can_edit"⟩],
    roles := [30],
    wors := [⟨1, 5, 1⟩],
    sors := [⟨1, 5, 11⟩],
    wprs := [⟨1, 20⟩],
    sprs := [⟨10, 20, 30⟩],
    object_perms := [⟨1, 5, 30, 20⟩] }

/-- The entity of the C2 failing input. -/
def eC : Obj := ⟨1, 5, none⟩

/-- A no-state-effect transition: destination is the state (id 40) that lists
it, no permission, no condition. -/
def t50 : Transition := ⟨50, "noop", "noop", 3, some 40, "", none⟩

/-- A transition that exists in the store but is not listed on state 40. -/
def t60 : Transition := ⟨60, "other", "other", 3, some 41, "", none⟩

/-- Fixture store for the C5/C6/C9/C4 witnesses: entity (ctype 2, id 9) in
state 40, whose only listed transition is t50. -/
def dbD : Database :=
  { emptyDb with
    workflows := [⟨3, "w3", "w3", some 40⟩],
    states := [⟨40, "s", "s", 3, [50]⟩, ⟨41, "r", "r", 3, []⟩],
    transitions := [t50, t60],
    sors := [⟨2, 9, 40⟩] }

/-- The entity of the dbD fixture. -/
def eD : Obj := ⟨2, 9, none⟩

/-- A transition on state 40 requiring permission 20, no condition. -/
def t70 : Transition := ⟨70, "pub", "pub", 3, some 41, "", some 20⟩

/-- The state listing t70. -/
def s40 : State := ⟨40, "s", "s", 3, [70]⟩

/-- Fixture store for the C3 witness: state 40 lists only t70, which requires
permission 20. -/
def dbE : Database :=
  { emptyDb with
    workflows := [⟨3, "w3", "w3", some 40⟩],
    states := [s40, ⟨41, "r", "r", 3, []⟩],
    transitions := [t70],
    permission_rows := [⟨20, "pub", "can_publish"⟩],
    sors := [⟨2, 9, 40⟩] }

/-- The entity of the C3 witness: its own specialized check denies. -/
def eE : Obj := ⟨2, 9, some (fun _ _ => Except.ok false)⟩

/-- Fixture store for the C10 witness: as dbE, but the default gate grants
permission 20 to the acting user (id 100) through role 30. -/
def dbF : Database :=
  { dbE with
    roles := [30],
    object_perms := [⟨2, 9, 30, 20⟩],
    principal_roles := [(100, 30)] }

/-- The entity of the C10 witness: its own check raises AttributeError while
executing. -/
def eF : Obj := ⟨2, 9, some (fun _ _ => Except.error PyExc.attributeError)⟩

/-- Fixture store for the C4 counterexample: entity (ctype 1, id 5) with no
workflow at all but a (stale) state binding to state 10, and a configured grant
of permission 20 to role 30 on state 10. -/
def dbG : Database :=
  { emptyDb with
    states := [⟨10, "private", "private", 1, []⟩],
    roles := [30],
    sors := [⟨1, 5, 10⟩],
    sprs := [⟨10, 20, 30⟩] }

/-- The entity of the C4 counterexample. -/
def eG : Obj := ⟨1, 5, none⟩

/-- An entity whose own specialized check grants. -/
def eE2 : Obj := ⟨2, 9, some (fun _ _ => Except.ok true)⟩

/-- A transition guarded by a (failing) condition expression, no permission. -/
def t80 : Transition := ⟨80, "guarded", "guarded", 3, some 41, "boom", none⟩

/-- The state listing t80. -/
def s42 : State := ⟨42, "g", "g", 3, [80]⟩

/-- Fixture store for the C7 witness. -/
def dbH : Database :=
  { emptyDb with states := [s42], transitions := [t80] }

/-! ### Helper lemmas about the store operations -/

/-- update_permissions only rewrites the object-permission table. -/
theorem update_permissions_sors (db : Database) (obj : Obj) :
    (update_permissions db obj).sors = db.sors := rfl

/-- update_permissions sends no signals. -/
theorem update_permissions_events (db : Database) (obj : Obj) :
    (update_permissions db obj).events = db.events := rfl

/-- The current state is unaffected by permission recomputation. -/
theorem get_state_update_permissions (db : Database) (obj o2 : Obj) :
    get_state (update_permissions db obj) o2 = get_state db o2 := rfl

/-- Updating the first match in place keeps it the first match when the update
preserves the predicate. -/
theorem find?_updateFirst (p : α → Bool) (f : α → α) (hf : ∀ a, p (f a) = p a) :
    ∀ (l : List α) (a : α), l.find? p = some a →
      (updateFirst p f l).find? p = some (f a) := by
  intro l
  induction l with
  | nil => intro a h; cases h
  | cons x xs ih =>
    intro a h
    cases hx : p x with
    | true =>
      rw [List.find?_cons_of_pos _ hx] at h
      cases h
      have hfx : p (f x) = true := by rw [hf]; exact hx
      simp [updateFirst, hx, List.find?_cons_of_pos _ hfx]
    | false =>
      rw [List.find?_cons_of_neg _ (by simp [hx])] at h
      simp only [updateFirst, hx]
      rw [if_neg (by simp [hx]), List.find?_cons_of_neg _ (by simp [hx])]
      exact ih a h

/-- Appending a row to a list in which nothing matches: the appended row is the
first match iff it matches. -/
theorem find?_append_singleton (p : α → Bool) :
    ∀ (l : List α) (a : α), l.find? p = none →
      (l ++ [a]).find? p = if p a then some a else none := by
  intro l
  induction l with
  | nil =>
    intro a _
    cases hpa : p a <;> simp [List.find?, hpa]
  | cons x xs ih =>
    intro a h
    have hx : p x = false := by
      cases hpx : p x
      · rfl
      · rw [List.find?_cons_of_pos _ hpx] at h; cases h
    rw [List.find?_cons_of_neg _ (by simp [hx])] at h
    simp only [List.cons_append]
    rw [List.find?_cons_of_neg _ (by simp [hx])]
    exact ih a h

/-- After the state write succeeds the entity's stored state is the requested
one. -/
theorem get_state_write_state (db : Database) (obj : Obj) (s : Nat) :
    get_state (write_state db obj s) obj = some s := by
  cases h : db.sors.find? (sorMatches obj) with
  | none =>
    simp only [write_state, h, get_state, update_permissions_sors]
    rw [find?_append_singleton _ _ _ h]
    simp [sorMatches]
  | some sor =>
    simp only [write_state, h, get_state, update_permissions_sors]
    rw [find?_updateFirst (sorMatches obj) (fun r => { r with state := s })
      (fun a => rfl) db.sors sor h]

/-- A successful state write sends exactly before_state_change and
after_state_change, with the previous state as from_state. -/
theorem write_state_events (db : Database) (obj : Obj) (s : Nat) :
    (write_state db obj s).events =
      db.events ++
        [Event.before_state_change obj.ctype obj.id (get_state db obj) (some s),
         Event.after_state_change obj.ctype obj.id (get_state db obj) (some s)] := by
  cases h : db.sors.find? (sorMatches obj) with
  | none => simp [write_state, h, update_permissions_events, get_state]
  | some sor => simp [write_state, h, update_permissions_events, get_state]

/-- In-place updates keep the key list of the state-binding table. -/
theorem map_sorKey_updateFirst (p : StateObjectRelation → Bool)
    (f : StateObjectRelation → StateObjectRelation)
    (hf : ∀ a, sorKey (f a) = sorKey a) :
    ∀ l : List StateObjectRelation, (updateFirst p f l).map sorKey = l.map sorKey := by
  intro l
  induction l with
  | nil => rfl
  | cons x xs ih => cases hx : p x <;> simp [updateFirst, hx, hf, ih]

/-- A successful state write preserves per-entity uniqueness of state
bindings: it updates the existing row in place, or creates the row only when
none exists. -/
theorem uniqueStateBindings_write_state (db : Database) (obj : Obj) (s : Nat)
    (h : uniqueStateBindings db) : uniqueStateBindings (write_state db obj s) := by
  unfold uniqueStateBindings nodupKeys at h ⊢
  cases hf : db.sors.find? (sorMatches obj) with
  | some sor =>
    simp only [write_state, hf, update_permissions_sors]
    rw [map_sorKey_updateFirst (sorMatches obj) (fun r => { r with state := s })
      (fun a => rfl) db.sors]
    exact h
  | none =>
    simp only [write_state, hf, update_permissions_sors]
    rw [List.map_append]
    rw [List.nodup_append]
    refine ⟨h, by simp, ?_⟩
    intro k hk hk1
    simp only [List.map_cons, List.map_nil, List.mem_singleton] at hk1
    rcases List.mem_map.mp hk with ⟨r, hr, hkey⟩
    have hall := List.find?_eq_none.mp hf r hr
    rw [hk1] at hkey
    apply hall
    simp only [sorKey, Prod.mk.injEq] at hkey
    simp [sorMatches, hkey.1, hkey.2]

/-- set_state preserves per-entity uniqueness of state bindings on both
outcomes: the success path writes in place or creates a single row, and the
raising path leaves the binding table untouched. -/
theorem uniqueStateBindings_set_state (db : Database) (obj : Obj) (st : Option Nat)
    (h : uniqueStateBindings db) : uniqueStateBindings (storeOf (set_state db obj st)) := by
  cases st with
  | some s => exact uniqueStateBindings_write_state db obj s h
  | none => exact h

/-- Membership in the allowed-transition list: exactly the listed transitions
whose decision evaluates to true (when the computation completes). -/
theorem mem_allowed_filter (geval : GuardEval) (db : Database) (obj : Obj) (user : Nat) :
    ∀ (ts l : List Transition), allowed_filter geval db obj user ts = Except.ok l →
      ∀ t, t ∈ l ↔ (t ∈ ts ∧ transition_allowed geval db obj user t = Except.ok true) := by
  intro ts
  induction ts with
  | nil =>
    intro l h t
    simp only [allowed_filter] at h
    cases h
    simp
  | cons t0 ts ih =>
    intro l h t
    cases h0 : transition_allowed geval db obj user t0 with
    | error e =>
      simp only [allowed_filter, h0] at h
      cases h
    | ok b =>
      cases hrest : allowed_filter geval db obj user ts with
      | error e =>
        simp only [allowed_filter, h0, hrest] at h
        cases h
      | ok rest =>
        simp only [allowed_filter, h0, hrest, Except.ok.injEq] at h
        subst h
        have ihr := ih rest hrest t
        cases b with
        | true =>
          simp only [if_true]
          constructor
          · intro hmem
            rcases List.mem_cons.mp hmem with h1 | h1
            · subst h1; exact ⟨List.mem_cons_self _ _, h0⟩
            · rcases ihr.mp h1 with ⟨hts, hall⟩
              exact ⟨List.mem_cons_of_mem _ hts, hall⟩
          · intro hx
            rcases List.mem_cons.mp hx.1 with h1 | h1
            · subst h1; exact List.mem_cons_self _ _
            · exact List.mem_cons_of_mem _ (ihr.mpr ⟨h1, hx.2⟩)
        | false =>
          rw [if_neg (by simp)]
          constructor
          · intro hmem
            rcases ihr.mp hmem with ⟨hts, hall⟩
            exact ⟨List.mem_cons_of_mem _ hts, hall⟩
          · intro hx
            rcases List.mem_cons.mp hx.1 with h1 | h1
            · subst h1; cases h0.symm.trans hx.2
            · exact ihr.mpr ⟨h1, hx.2⟩

/-- When the applicable permission check returns a boolean, the per-transition
decision is that boolean conjoined with the guard. -/
theorem transition_allowed_of_check (geval : GuardEval) (db : Database) (obj : Obj)
    (user : Nat) (t : Transition) (pid : Nat) (b : Bool)
    (hp : t.permission = some pid)
    (hc : applicable_check db obj user (permissionCodename db pid) = Except.ok b) :
    transition_allowed geval db obj user t =
      Except.ok (b && condition_met geval obj user t) := by
  cases hop : obj.has_permission with
  | some f =>
    have hf : f user (permissionCodename db pid) = Except.ok b := by
      simpa [applicable_check, hop] using hc
    simp [transition_allowed, hp, hop, hf]
  | none =>
    have hg : Permissions.has_permission db obj user (permissionCodename db pid) = b := by
      simpa [applicable_check, hop] using hc
    simp [transition_allowed, hp, hop, hg]

/-- A transition with no stored condition has its guard treated as met. -/
theorem condition_met_no_condition (geval : GuardEval) (obj : Obj) (user : Nat)
    (t : Transition) (h : t.condition = "") :
    condition_met geval obj user t = true := by
  simp [condition_met, h]

/-- A failing guard evaluation yields "not met". -/
theorem condition_met_error (geval : GuardEval) (obj : Obj) (user : Nat)
    (t : Transition) (e : Unit) (hne : t.condition ≠ "")
    (he : geval t.condition obj user t = Except.error e) :
    condition_met geval obj user t = false := by
  simp [condition_met, hne, he]

/-- A transition whose applicable permission check returns false is never kept
by the filtering loop, whatever the guard evaluates to. -/
theorem not_mem_of_check_false (geval : GuardEval) (db : Database) (obj : Obj)
    (user : Nat) (t : Transition) (pid : Nat) (ts l : List Transition)
    (hp : t.permission = some pid)
    (hc : applicable_check db obj user (permissionCodename db pid) = Except.ok false)
    (hok : allowed_filter geval db obj user ts = Except.ok l) : t ∉ l := by
  intro hin
  have hall := ((mem_allowed_filter geval db obj user ts l hok t).mp hin).2
  rw [transition_allowed_of_check geval db obj user t pid false hp hc] at hall
  simp at hall

/-- Claim C3: for every entity, actor and transition carrying a required
permission, if the applicable permission check (the entity's own specialized
has_permission when exposed, else the default permission gate) returns false,
the transition is not in the allowed set — both at the state level and through
utils.get_allowed_transitions — regardless of the guard; and when the check
returns true the transition is included iff it is listed on the state and its
guard evaluates true. -/
theorem allowed_transitions_permission_gating
    (geval : GuardEval) (db : Database) (s : State) (obj : Obj) (user : Nat)
    (t : Transition) (pid : Nat) (l l2 : List Transition)
    (hok : State.get_allowed_transitions geval db s obj user = Except.ok l)
    (hok2 : get_allowed_transitions geval db obj user = Except.ok l2)
    (hp : t.permission = some pid) :
    (applicable_check db obj user (permissionCodename db pid) = Except.ok false →
      t ∉ l ∧ t ∉ l2) ∧
    (applicable_check db obj user (permissionCodename db pid) = Except.ok true →
      (t ∈ l ↔ (t ∈ transitionsOf db s ∧ condition_met geval obj user t = true))) := by
  constructor
  · intro hc
    constructor
    · exact not_mem_of_check_false geval db obj user t pid _ l hp hc hok
    · cases hst : get_state db obj with
      | none =>
        simp only [get_allowed_transitions, hst] at hok2
        cases hok2
        simp
      | some stId =>
        cases hfs : db.states.find? (fun s2 => s2.id == stId) with
        | none =>
          simp only [get_allowed_transitions, hst, hfs] at hok2
          cases hok2
          simp
        | some s2 =>
          simp only [get_allowed_transitions, hst, hfs] at hok2
          exact not_mem_of_check_false geval db obj user t pid _ l2 hp hc hok2
  · intro hc
    rw [mem_allowed_filter geval db obj user _ l hok t]
    rw [transition_allowed_of_check geval db obj user t pid true hp hc]
    simp

/-- Claim C3 witness: in the dbE fixture the entity whose own check denies gets
no allowed transition, and the entity whose own check grants gets exactly the
listed transition (its guard being empty, hence met). -/
theorem allowed_transitions_permission_gating_witness :
    (t70 ∉ ([] : List Transition) ∧ t70 ∉ ([] : List Transition)) ∧
    (t70 ∈ [t70] ↔ (t70 ∈ transitionsOf dbE s40 ∧ condition_met gevalTrue eE2 100 t70 = true)) :=
  ⟨(allowed_transitions_permission_gating gevalTrue dbE s40 eE 100 t70 20 [] []
      rfl rfl rfl).1 rfl,
   (allowed_transitions_permission_gating gevalTrue dbE s40 eE2 100 t70 20 [t70] [t70]
      rfl rfl rfl).2 rfl⟩

/-- Claim C7: a transition whose guard expression raises during evaluation is
treated as "guard not met" and excluded from the allowed set computed by
State.get_allowed_transitions (the error never propagates: the computation
still returns a list), and a transition with no stored condition has its guard
treated as met. -/
theorem guard_error_fail_closed :
    (∀ (geval : GuardEval) (db : Database) (s : State) (obj : Obj) (user : Nat)
       (t : Transition) (l : List Transition) (e : Unit),
       State.get_allowed_transitions geval db s obj user = Except.ok l →
       t.condition ≠ "" → geval t.condition obj user t = Except.error e → t ∉ l) ∧
    (∀ (geval : GuardEval) (obj : Obj) (user : Nat) (t : Transition),
       t.condition = "" → condition_met geval obj user t = true) := by
  constructor
  · intro geval db s obj user t l e hok hne he hin
    have hcm := condition_met_error geval obj user t e hne he
    have hall := ((mem_allowed_filter geval db obj user _ l hok t).mp hin).2
    unfold transition_allowed at hall
    cases hp : t.permission with
    | none =>
      simp [hp, hcm] at hall
    | some pid =>
      simp only [hp] at hall
      cases hop : obj.has_permission with
      | none =>
        simp [hop, hcm] at hall
      | some f =>
        simp only [hop] at hall
        cases hf : f user (permissionCodename db pid) with
        | ok b =>
          simp [hf, hcm] at hall
        | error ex =>
          cases ex <;> simp [hf, hcm] at hall
  · intro geval obj user t h
    exact condition_met_no_condition geval obj user t h

/-- Claim C7 witness: in the dbH fixture the guarded transition is excluded
under an evaluator that raises, and the condition-free transition t50 has its
guard met. -/
theorem guard_error_fail_closed_witness :
    t80 ∉ ([] : List Transition) ∧ condition_met gevalErr eD 100 t50 = true :=
  ⟨guard_error_fail_closed.1 gevalErr dbH s42 eD 100 t80 [] () rfl (by decide) rfl,
   guard_error_fail_closed.2 gevalErr eD 100 t50 rfl⟩

/-- Claim C10: when an entity's own has_permission raises AttributeError during
its execution, the engine silently falls back to the default permission gate —
the transition is included exactly on the basis of the default check (and the
guard), even though the entity's own check failed with an error. -/
theorem has_permission_attribute_error_fallback
    (geval : GuardEval) (db : Database) (s : State) (obj : Obj) (user : Nat)
    (t : Transition) (pid : Nat) (f : Nat → String → Except PyExc Bool)
    (l : List Transition)
    (hok : State.get_allowed_transitions geval db s obj user = Except.ok l)
    (hop : obj.has_permission = some f)
    (hp : t.permission = some pid)
    (hf : f user (permissionCodename db pid) = Except.error PyExc.attributeError) :
    t ∈ l ↔ (t ∈ transitionsOf db s ∧
      Permissions.has_permission db obj user (permissionCodename db pid) = true ∧
      condition_met geval obj user t = true) := by
  rw [mem_allowed_filter geval db obj user _ l hok t]
  have hta : transition_allowed geval db obj user t =
      Except.ok (Permissions.has_permission db obj user (permissionCodename db pid) &&
        condition_met geval obj user t) := by
    simp [transition_allowed, hp, hop, hf]
  rw [hta]
  simp [and_assoc]

/-- Claim C10 witness: in the dbF fixture the entity's own check raises
AttributeError, the default gate grants, and the transition is allowed. -/
theorem has_permission_attribute_error_fallback_witness :
    t70 ∈ [t70] ↔ (t70 ∈ transitionsOf dbF s40 ∧
      Permissions.has_permission dbF eF 100 (permissionCodename dbF 20) = true ∧
      condition_met gevalTrue eF 100 t70 = true) :=
  has_permission_attribute_error_fallback gevalTrue dbF s40 eF 100 t70 20
    (fun _ _ => Except.error PyExc.attributeError) [t70] rfl rfl rfl rfl

/-- Claim C5: do_transition returns false — with the store unchanged (no state
change, no events, hence no hooks) and without raising — both when a codename
argument resolves to no Transition and when the resolved Transition is not
among the allowed transitions (primary-key membership). -/
theorem do_transition_returns_false_cases :
    (∀ (geval : GuardEval) (db : Database) (obj : Obj) (arg : TransitionArg) (user : Nat),
       resolveTransition db arg = none →
       do_transition geval db obj arg user = Except.ok (db, false)) ∧
    (∀ (geval : GuardEval) (db : Database) (obj : Obj) (arg : TransitionArg) (user : Nat)
       (t : Transition) (l : List Transition),
       resolveTransition db arg = some t →
       get_allowed_transitions geval db obj user = Except.ok l →
       l.any (fun x => x.id == t.id) = false →
       do_transition geval db obj arg user = Except.ok (db, false)) := by
  constructor
  · intro geval db obj arg user h
    simp [do_transition, h]
  · intro geval db obj arg user t l h1 h2 h3
    simp [do_transition, h1, h2, h3]

/-- Claim C5 witness: in the dbD fixture an unknown codename and a
non-allowed transition both yield false with the store untouched. -/
theorem do_transition_returns_false_cases_witness :
    do_transition gevalTrue dbD eD (TransitionArg.codename "nope") 100 =
      Except.ok (dbD, false) ∧
    do_transition gevalTrue dbD eD (TransitionArg.trans t60) 100 =
      Except.ok (dbD, false) :=
  ⟨do_transition_returns_false_cases.1 gevalTrue dbD eD (TransitionArg.codename "nope") 100 rfl,
   do_transition_returns_false_cases.2 gevalTrue dbD eD (TransitionArg.trans t60) 100 t60 [t50]
     rfl rfl rfl⟩

/-- Claim C6: an allowed transition whose destination is null or equals the
current state returns true from do_transition, fires before_transition and
after_transition (and nothing else), mutates no state binding and appends no
history row: the resulting store differs from the initial one only by the two
transition events. -/
theorem do_transition_noop_destination_fires_hooks
    (geval : GuardEval) (db : Database) (obj : Obj) (user : Nat)
    (t : Transition) (l : List Transition)
    (hok : get_allowed_transitions geval db obj user = Except.ok l)
    (hmem : l.any (fun x => x.id == t.id) = true)
    (hdest : t.destination = none ∨ t.destination = get_state db obj) :
    do_transition geval db obj (TransitionArg.trans t) user =
      Except.ok ({ db with events := db.events ++
        [Event.before_transition obj.ctype obj.id (get_state db obj) t.id user,
         Event.after_transition obj.ctype obj.id (get_state db obj) t.id user] }, true) := by
  rcases hdest with h | h
  · simp [do_transition, resolveTransition, hok, hmem, h]
  · cases hd : t.destination with
    | none => simp [do_transition, resolveTransition, hok, hmem, hd]
    | some d =>
      rw [hd] at h
      simp [do_transition, resolveTransition, hok, hmem, hd, ← h]

/-- Claim C6 witness: the no-state-effect transition t50 (destination equals
the current state) applied in the dbD fixture. -/
theorem do_transition_noop_destination_fires_hooks_witness :
    do_transition gevalTrue dbD eD (TransitionArg.trans t50) 100 =
      Except.ok ({ dbD with events := dbD.events ++
        [Event.before_transition eD.ctype eD.id (get_state dbD eD) t50.id 100,
         Event.after_transition eD.ctype eD.id (get_state dbD eD) t50.id 100] }, true) :=
  do_transition_noop_destination_fires_hooks gevalTrue dbD eD 100 t50 [t50]
    rfl rfl (Or.inr rfl)

/-- set_initial_state preserves per-entity uniqueness of state bindings on
both outcomes. -/
theorem uniqueStateBindings_set_initial_state (db : Database) (obj : Obj)
    (h : uniqueStateBindings db) :
    uniqueStateBindings (storeOf (set_initial_state db obj)) := by
  unfold set_initial_state
  split
  · exact h
  · split
    · exact h
    · exact uniqueStateBindings_set_state _ _ _ h

/-- Claim C9: starting from a store with at most one StateBinding per entity,
every engine operation — set_state, set_workflow (Workflow.set_to_object),
do_transition, remove_workflow — preserves the invariant: set_state updates
the existing binding in place rather than creating a second one. -/
theorem state_binding_uniqueness_preserved (db : Database) (h : uniqueStateBindings db) :
    (∀ (obj : Obj) (st : Option Nat),
       uniqueStateBindings (storeOf (set_state db obj st))) ∧
    (∀ (w : Workflow) (obj : Obj),
       uniqueStateBindings (storeOf (Workflow.set_to_object db w obj))) ∧
    (∀ (geval : GuardEval) (obj : Obj) (arg : TransitionArg) (user : Nat)
       (db2 : Database) (b : Bool),
       do_transition geval db obj arg user = Except.ok (db2, b) →
       uniqueStateBindings db2) ∧
    (∀ obj : Obj, uniqueStateBindings (storeOf (remove_workflow_from_object db obj))) := by
  refine ⟨fun obj st => uniqueStateBindings_set_state db obj st h, ?_, ?_, ?_⟩
  · intro w obj
    unfold Workflow.set_to_object
    split
    · exact uniqueStateBindings_set_state _ _ _ h
    · split
      · exact h
      · exact uniqueStateBindings_set_state _ _ _ h
  · intro geval obj arg user db2 b hdo
    unfold do_transition at hdo
    split at hdo
    · cases hdo
      exact h
    · split at hdo
      · cases hdo
      · split at hdo
        · cases hdo
          unfold uniqueStateBindings nodupKeys
          split
          · exact h
          · split
            · exact h
            · exact uniqueStateBindings_write_state _ _ _ h
        · cases hdo
          exact h
  · intro obj
    unfold remove_workflow_from_object
    split
    · exact uniqueStateBindings_set_initial_state _ _ h
    · exact uniqueStateBindings_set_initial_state _ _ h

/-- Claim C9 witness: the invariant holds of the dbD fixture and is preserved
by a state change there. -/
theorem state_binding_uniqueness_preserved_witness :
    uniqueStateBindings (storeOf (set_state dbD eD (some 41))) :=
  (state_binding_uniqueness_preserved dbD (by unfold uniqueStateBindings nodupKeys; decide)).1 eD (some 41)

/-- Claim C1 counterexample: (a) assigning a workflow with no explicit initial
state to a fresh entity passes the raw None field into the state write, which
raises on the non-nullable state column after firing only before_state_change
(with to_state empty): the entity's state does not become the workflow's first
state and after_state_change never fires, contrary to the claim's
initial_state(W2)-with-both-hooks reading; (b) re-assigning the workflow the
entity already has leaves a non-initial state untouched and fires no hooks at
all, although the claim quantifies over every previous workflow. -/
theorem set_to_object_claim_counterexample :
    (exceptIsOk (Workflow.set_to_object dbA wfA eA) = false ∧
     get_state (storeOf (Workflow.set_to_object dbA wfA eA)) eA = none ∧
     (storeOf (Workflow.set_to_object dbA wfA eA)).events =
       [Event.before_state_change 1 1 none none] ∧
     Workflow.get_initial_state dbA wfA = some 7) ∧
    (Workflow.set_to_object dbB wfB eA = Except.ok dbB ∧
     get_state dbB eA = some 8 ∧
     Workflow.get_initial_state dbB wfB = some 7) :=
  ⟨⟨rfl, rfl, rfl, rfl⟩, ⟨rfl, rfl, rfl⟩⟩

/-- Claim C1 (amended): set_workflow (Workflow.set_to_object) for an entity
that previously had a DIFFERENT workflow, or none, passes the new workflow's
raw initial_state field to the state write (the first-state fallback of
get_initial_state is not used).  When that field is set, the entity's state
becomes it and before_state_change/after_state_change fire with from equal to
the previous state (empty when the entity had no state binding).  When the
field is unset, before_state_change fires with to_state empty and the
operation raises at the non-nullable state write: the entity's state is
unchanged and after_state_change never fires. -/
theorem set_to_object_state_reset_amended (db : Database) (w : Workflow) (obj : Obj)
    (h : ∀ wor, db.wors.find? (worMatches obj) = some wor → wor.workflow ≠ w.id) :
    (∀ s, w.initial_state = some s →
       exceptIsOk (Workflow.set_to_object db w obj) = true ∧
       get_state (storeOf (Workflow.set_to_object db w obj)) obj = some s ∧
       (storeOf (Workflow.set_to_object db w obj)).events = db.events ++
         [Event.before_state_change obj.ctype obj.id (get_state db obj) (some s),
          Event.after_state_change obj.ctype obj.id (get_state db obj) (some s)]) ∧
    (w.initial_state = none →
       exceptIsOk (Workflow.set_to_object db w obj) = false ∧
       get_state (storeOf (Workflow.set_to_object db w obj)) obj = get_state db obj ∧
       (storeOf (Workflow.set_to_object db w obj)).events = db.events ++
         [Event.before_state_change obj.ctype obj.id (get_state db obj) none]) := by
  cases hf : db.wors.find? (worMatches obj) with
  | none =>
    constructor
    · intro s hs
      simp only [Workflow.set_to_object, hf, hs, set_state, storeOf, exceptIsOk]
      refine ⟨trivial, get_state_write_state _ obj s, ?_⟩
      rw [write_state_events]
      rfl
    · intro hs
      simp only [Workflow.set_to_object, hf, hs, set_state, storeOf, exceptIsOk]
      exact ⟨trivial, rfl, rfl⟩
  | some wor =>
    have hne := h wor hf
    constructor
    · intro s hs
      simp only [Workflow.set_to_object, hf]
      rw [if_neg hne]
      simp only [hs, set_state, storeOf, exceptIsOk]
      refine ⟨trivial, get_state_write_state _ obj s, ?_⟩
      rw [write_state_events]
      rfl
    · intro hs
      simp only [Workflow.set_to_object, hf]
      rw [if_neg hne]
      simp only [hs, set_state, storeOf, exceptIsOk]
      exact ⟨trivial, rfl, rfl⟩

/-- Claim C1 witness: on the fresh entity of the dbA fixture, assigning wfB
(explicit initial state 7) succeeds, stores state 7 and fires both state-change
hooks, while assigning wfA (no explicit initial state) raises after firing
only before_state_change, leaving the state unchanged. -/
theorem set_to_object_state_reset_amended_witness :
    (exceptIsOk (Workflow.set_to_object dbA wfB eA) = true ∧
     get_state (storeOf (Workflow.set_to_object dbA wfB eA)) eA = some 7 ∧
     (storeOf (Workflow.set_to_object dbA wfB eA)).events = dbA.events ++
       [Event.before_state_change eA.ctype eA.id (get_state dbA eA) (some 7),
        Event.after_state_change eA.ctype eA.id (get_state dbA eA) (some 7)]) ∧
    (exceptIsOk (Workflow.set_to_object dbA wfA eA) = false ∧
     get_state (storeOf (Workflow.set_to_object dbA wfA eA)) eA = get_state dbA eA ∧
     (storeOf (Workflow.set_to_object dbA wfA eA)).events = dbA.events ++
       [Event.before_state_change eA.ctype eA.id (get_state dbA eA) none]) :=
  ⟨(set_to_object_state_reset_amended dbA wfB eA
      (by intro wor hw; simp [dbA, emptyDb] at hw)).1 7 rfl,
   (set_to_object_state_reset_amended dbA wfA eA
      (by intro wor hw; simp [dbA, emptyDb] at hw)).2 rfl⟩

/-- Claim C2, the code evaluated at the failing input: removing the workflow
from the dbC entity leaves the workflow binding in place (the lookup compares
the binding's content-type id with the entity's id and finds nothing), then
set_initial_state re-resolves the entity's own workflow, resets its state to
that workflow's initial state (not empty) and re-grants that state's
configured permission. -/
theorem remove_workflow_from_object_failing_eval :
    exceptIsOk (remove_workflow_from_object dbC eC) = true ∧
    get_state (storeOf (remove_workflow_from_object dbC eC)) eC = some 10 ∧
    (storeOf (remove_workflow_from_object dbC eC)).wors = [⟨1, 5, 1⟩] ∧
    hasGrant (storeOf (remove_workflow_from_object dbC eC)) eC 30 20 = true :=
  ⟨rfl, rfl, rfl, rfl⟩

/-- Filtering then testing any is testing the conjunction. -/
theorem any_filter_eq (q m : α → Bool) :
    ∀ l : List α, (l.filter q).any m = l.any (fun a => m a && q a) := by
  intro l
  induction l with
  | nil => rfl
  | cons x xs ih =>
    cases hq : q x <;> cases hm : m x <;>
      simp [List.filter_cons, hq, hm, ih]

/-- any respects pointwise equality on the list's members. -/
theorem any_congr_list (f g : α → Bool) :
    ∀ l : List α, (∀ a ∈ l, f a = g a) → l.any f = l.any g := by
  intro l
  induction l with
  | nil => intro _; rfl
  | cons x xs ih =>
    intro h
    simp only [List.any_cons]
    rw [h x (List.mem_cons_self x xs), ih (fun a ha => h a (List.mem_cons_of_mem _ ha))]

/-- A constant conjunct factors out of any. -/
theorem any_and_const (m : α → Bool) (k : Bool) :
    ∀ l : List α, l.any (fun a => m a && k) = (l.any m && k) := by
  intro l
  induction l with
  | nil => simp
  | cons x xs ih => cases k <;> simp [List.any_cons, ih]

/-- Granting adds exactly one (role, permission) fact about the object. -/
theorem any_grant_insert (ops : List ObjectPermission) (obj : Obj) (role perm r p : Nat) :
    (Permissions.grant_insert ops obj role perm).any (opMatches obj r p) =
      (ops.any (opMatches obj r p) || (role == r && perm == p)) := by
  unfold Permissions.grant_insert
  cases hpres : ops.any (opMatches obj role perm) with
  | true =>
    simp only [hpres, if_true]
    by_cases hr : role = r
    · by_cases hp2 : perm = p
      · subst hr
        subst hp2
        simp [hpres]
      · have hb : (perm == p) = false := by simp [hp2]
        simp [hb]
    · have hb : (role == r) = false := by simp [hr]
      simp [hb]
  | false =>
    rw [if_neg (by simp [hpres])]
    rw [List.any_append]
    simp [opMatches]

/-- The grant loop over configured triples adds exactly the configured
(role, permission) facts. -/
theorem any_grant_fold (obj : Obj) (r p : Nat) :
    ∀ (l : List StatePermissionRelation) (ops : List ObjectPermission),
      ((l.foldl (fun o spr => Permissions.grant_insert o obj spr.role spr.permission) ops).any
        (opMatches obj r p)) =
      (ops.any (opMatches obj r p) ||
        l.any (fun spr => spr.role == r && spr.permission == p)) := by
  intro l
  induction l with
  | nil => intro ops; simp
  | cons spr l ih =>
    intro ops
    simp only [List.foldl_cons, List.any_cons]
    rw [ih, any_grant_insert]
    simp [Bool.or_assoc]

/-- The net effect of update_permissions on one (role, permission) fact:
granted afterwards iff configured for the current state, or granted before and
not removed (removal hits the roles × responsible-permissions rectangle). -/
theorem hasGrant_update_permissions (db : Database) (obj : Obj) (r p : Nat) :
    hasGrant (update_permissions db obj) obj r p =
      (configured db obj r p ||
        (hasGrant db obj r p &&
          !(db.roles.contains r && (responsiblePerms db obj).contains p))) := by
  unfold hasGrant update_permissions
  dsimp only
  rw [any_grant_fold]
  unfold Permissions.remove_bulk
  rw [any_filter_eq]
  have hcong : db.object_perms.any
      (fun op => opMatches obj r p op &&
        !(op.content_type == obj.ctype && op.content_id == obj.id &&
          db.roles.contains op.role && (responsiblePerms db obj).contains op.permission)) =
      db.object_perms.any (fun op => opMatches obj r p op &&
        !(db.roles.contains r && (responsiblePerms db obj).contains p)) := by
    apply any_congr_list
    intro op hop
    cases hm : opMatches obj r p op with
    | false => simp
    | true =>
      have hm2 := hm
      simp only [opMatches, Bool.and_eq_true, beq_iff_eq] at hm2
      obtain ⟨⟨⟨hct, hci⟩, hr⟩, hp2⟩ := hm2
      simp [hm, hct, hci, hr, hp2]
  rw [hcong, any_and_const, Bool.or_comm]
  rfl

/-- Claim C4 counterexample: update_permissions for an entity with no workflow
is not a no-op — the stale current state's configured grant (of a permission
no workflow is responsible for) is still applied, so a non-workflow-owned
permission on the entity changes. -/
theorem update_permissions_no_workflow_counterexample :
    get_workflow dbG eG = none ∧
    hasGrant dbG eG 30 20 = false ∧
    hasGrant (update_permissions dbG eG) eG 30 20 = true ∧
    responsiblePerms dbG eG = [] :=
  ⟨rfl, rfl, rfl, rfl⟩

/-- Claim C4 (amended): after update_permissions (with role foreign keys
closed under the role table), a role holds a permission on the entity iff the
entity's current state configures that grant, or the permission is outside the
set the entity's workflow is responsible for and the grant was already there.
In particular, workflow-managed permissions end up exactly equal to the
current state's configured grants, and permissions that are neither
workflow-managed nor configured for the current state are untouched; but there
is no no-op path for entities without a workflow, and configured grants are
applied even when not workflow-managed. -/
theorem update_permissions_grants_amended (db : Database) (obj : Obj) (r p : Nat)
    (hclosure : ∀ op ∈ db.object_perms, db.roles.contains op.role = true) :
    hasGrant (update_permissions db obj) obj r p =
      (configured db obj r p ||
        (hasGrant db obj r p && !((responsiblePerms db obj).contains p))) := by
  rw [hasGrant_update_permissions]
  cases hg : hasGrant db obj r p with
  | false => simp
  | true =>
    have hr : db.roles.contains r = true := by
      unfold hasGrant at hg
      rcases List.any_eq_true.mp hg with ⟨op, hop, hmatch⟩
      simp only [opMatches, Bool.and_eq_true, beq_iff_eq] at hmatch
      obtain ⟨⟨⟨_, _⟩, hrole⟩, _⟩ := hmatch
      rw [← hrole]
      exact hclosure op hop
    have hr2 : r ∈ db.roles := by simpa using hr
    simp [hg, hr2]

/-- Claim C4 witness: the amended equation instantiated in the dbD fixture. -/
theorem update_permissions_grants_amended_witness :
    hasGrant (update_permissions dbD eD) eD 30 20 =
      (configured dbD eD 30 20 ||
        (hasGrant dbD eD 30 20 && !((responsiblePerms dbD eD).contains 20))) :=
  update_permissions_grants_amended dbD eD 30 20
    (by intro op hop; simp [dbD, emptyDb] at hop)

/-- Claim C8: permission recomputation is idempotent — running
update_permissions twice in a row yields the same grant set on the entity as
running it once. -/
theorem update_permissions_idempotent (db : Database) (obj : Obj) (r p : Nat) :
    hasGrant (update_permissions (update_permissions db obj) obj) obj r p =
      hasGrant (update_permissions db obj) obj r p := by
  rw [hasGrant_update_permissions, hasGrant_update_permissions]
  have hconf : configured (update_permissions db obj) obj r p = configured db obj r p := rfl
  have hresp : responsiblePerms (update_permissions db obj) obj = responsiblePerms db obj := rfl
  have hroles : (update_permissions db obj).roles = db.roles := rfl
  rw [hconf, hresp, hroles]
  generalize configured db obj r p = a
  generalize hasGrant db obj r p = b
  generalize (db.roles.contains r && (responsiblePerms db obj).contains p) = k
  cases a <;> cases b <;> cases k <;> rfl
